import Mathlib

/-!
Shallow embedding of the mobile touch-control core of this repository:
the gesture recognizer (`GestureRecognizer.ts`), the touch-control manager
(`TouchControlManager.ts`), the performance monitor (`PerformanceMonitor.ts`),
the performance optimizer (`PerformanceOptimizer.ts`) and the touch utilities
(`TouchUtils.ts`).  JavaScript numbers are modelled as real numbers; touch
identifiers (DOM `Touch.identifier` values, which are integral) as integers;
JS `Map`s as insertion-ordered lists; `Date.now()` is threaded through as an
explicit `now` argument wherever the source reads the clock.
-/

namespace TouchControl

/-- Model of `Math.atan2 y x`, the platform function used by the source for angles. -/
noncomputable def atan2 (y x : ℝ) : ℝ :=
  if 0 < x then Real.arctan (y / x)
  else if x < 0 then
    (if 0 ≤ y then Real.arctan (y / x) + Real.pi else Real.arctan (y / x) - Real.pi)
  else
    (if 0 < y then Real.pi / 2 else if y < 0 then -(Real.pi / 2) else 0)

/-- Model of `TouchPoint` from `TouchTypes.ts`. -/
structure TouchPoint where
  x : ℝ
  y : ℝ
  timestamp : ℝ
  identifier : ℤ
  pressure : Option ℝ := none

instance : Inhabited TouchPoint := ⟨⟨0, 0, 0, 0, none⟩⟩

/-- The `GestureType` enum from `TouchTypes.ts`. -/
inductive GestureType
  | TAP
  | DOUBLE_TAP
  | LONG_PRESS
  | SWIPE_LEFT
  | SWIPE_RIGHT
  | SWIPE_UP
  | SWIPE_DOWN
  | PAN
  | PINCH
  | ROTATE
  | EDGE_SWIPE
  | FORCE_TOUCH
deriving DecidableEq, Fintype

/-- Model of `GestureConfig` from `TouchTypes.ts`. -/
structure GestureConfig where
  minDistance : ℝ
  maxDistance : ℝ
  minDuration : ℝ
  maxDuration : ℝ
  velocityThreshold : ℝ
  scaleThreshold : ℝ
  rotationThreshold : ℝ

/-- Model of `GestureState` from `TouchTypes.ts`. -/
structure GestureState where
  startTime : ℝ
  startTouches : List TouchPoint
  currentTouches : List TouchPoint
  deltaX : ℝ
  deltaY : ℝ
  velocityX : ℝ
  velocityY : ℝ
  scale : ℝ
  rotation : ℝ
  isActive : Bool
  isRecognized : Bool

/-- Model of `GestureEvent` from `TouchTypes.ts` (the recognizer never sets the
optional `target`/`nativeEvent` fields, so they are omitted). -/
structure GestureEvent where
  type : GestureType
  state : GestureState
  timestamp : ℝ

/-- The mutable fields of the `GestureRecognizer` class (the private
`gestureCache` map is written only by `destroy` and never read, so it is
not modelled). -/
structure GestureRecognizer where
  config : GestureConfig
  gestureState : Option GestureState := none
  isProcessing : Bool := false

/-- Model of `new GestureRecognizer(config)`. -/
def GestureRecognizer.init (config : GestureConfig) : GestureRecognizer :=
  { config := config }

/-- Model of `GestureRecognizer.onTouchStart`: ignored while a gesture is being
processed, otherwise starts a fresh `GestureState`.  `now` is the value of
`Date.now()` at the call. -/
def GestureRecognizer.onTouchStart (r : GestureRecognizer) (now : ℝ)
    (touch : TouchPoint) : GestureRecognizer :=
  if r.isProcessing then r
  else
    { r with
      gestureState := some
        { startTime := now
          startTouches := [touch]
          currentTouches := [touch]
          deltaX := 0
          deltaY := 0
          velocityX := 0
          velocityY := 0
          scale := 1
          rotation := 0
          isActive := true
          isRecognized := false }
      isProcessing := true }

/-- Model of `GestureRecognizer.calculateMultiTouchProperties`: recomputes
`scale`/`rotation` from the first two entries of `currentTouches` against
`startTouches[0]` and `startTouches[1] || startTouches[0]`. -/
noncomputable def GestureRecognizer.calculateMultiTouchProperties
    (gs : GestureState) : GestureState :=
  if gs.currentTouches.length < 2 then gs
  else
    let touch1 := gs.currentTouches.headI
    let touch2 := (gs.currentTouches.drop 1).headI
    let startTouch1 := gs.startTouches.headI
    let startTouch2 := (gs.startTouches.drop 1).headD startTouch1
    let currentDistance :=
      Real.sqrt ((touch2.x - touch1.x) ^ 2 + (touch2.y - touch1.y) ^ 2)
    let startDistance :=
      Real.sqrt ((startTouch2.x - startTouch1.x) ^ 2 +
        (startTouch2.y - startTouch1.y) ^ 2)
    let newScale := if startDistance > 0 then currentDistance / startDistance else gs.scale
    let currentAngle := atan2 (touch2.y - touch1.y) (touch2.x - touch1.x)
    let startAngle := atan2 (startTouch2.y - startTouch1.y) (startTouch2.x - startTouch1.x)
    { gs with
      scale := newScale
      rotation := (currentAngle - startAngle) * (180 / Real.pi) }

/-- Model of `GestureRecognizer.onTouchMove`: updates the matching-identifier entry of
`currentTouches` in place (JS `findIndex` + assignment) or appends a new one,
recomputes deltas and velocity against `startTouches[0]`, recomputes the
multi-touch properties when more than one touch is active, and returns the
live state (`null` when not tracking). -/
noncomputable def GestureRecognizer.onTouchMove (r : GestureRecognizer)
    (touch : TouchPoint) : GestureRecognizer × Option GestureState :=
  match r.gestureState, r.isProcessing with
  | some gs, true =>
    let touchIndex := gs.currentTouches.findIdx (fun t => t.identifier == touch.identifier)
    let cur :=
      if touchIndex < gs.currentTouches.length
      then gs.currentTouches.set touchIndex touch
      else gs.currentTouches ++ [touch]
    let startTouch := gs.startTouches.headI
    let dX := touch.x - startTouch.x
    let dY := touch.y - startTouch.y
    let timeDelta := touch.timestamp - startTouch.timestamp
    let vX := if timeDelta > 0 then dX / timeDelta else gs.velocityX
    let vY := if timeDelta > 0 then dY / timeDelta else gs.velocityY
    let gs1 : GestureState :=
      { gs with
        currentTouches := cur
        deltaX := dX
        deltaY := dY
        velocityX := vX
        velocityY := vY }
    let gs2 :=
      if gs1.currentTouches.length > 1
      then GestureRecognizer.calculateMultiTouchProperties gs1
      else gs1
    ({ r with gestureState := some gs2 }, some gs2)
  | _, _ => (r, none)

/-- Model of `GestureRecognizer.recognizeSwipeDirection` (the `null` guard of the
source cannot fire here because the caller passes the state directly). -/
noncomputable def GestureRecognizer.recognizeSwipeDirection
    (gs : GestureState) : GestureType :=
  let absX := |gs.deltaX|
  let absY := |gs.deltaY|
  if absX > absY then (if gs.deltaX > 0 then .SWIPE_RIGHT else .SWIPE_LEFT)
  else (if gs.deltaY > 0 then .SWIPE_DOWN else .SWIPE_UP)

/-- Model of `GestureRecognizer.recognizeMultiTouchGesture`. -/
noncomputable def GestureRecognizer.recognizeMultiTouchGesture
    (cfg : GestureConfig) (gs : GestureState) : Option GestureType :=
  if |gs.scale - 1| > cfg.scaleThreshold then some .PINCH
  else if |gs.rotation| > cfg.rotationThreshold then some .ROTATE
  else none

/-- Model of `GestureRecognizer.recognizeGesture`: the first-match-wins rule list.
`now` is the value of `Date.now()` at the call. -/
noncomputable def GestureRecognizer.recognizeGesture (cfg : GestureConfig)
    (now : ℝ) (gs : GestureState) : Option GestureType :=
  let duration := now - gs.startTime
  let distance := Real.sqrt (gs.deltaX ^ 2 + gs.deltaY ^ 2)
  let velocity := Real.sqrt (gs.velocityX ^ 2 + gs.velocityY ^ 2)
  if distance < cfg.minDistance ∧ duration < cfg.maxDuration then some .TAP
  else if distance < cfg.minDistance ∧ duration > cfg.minDuration then some .LONG_PRESS
  else if velocity > cfg.velocityThreshold ∧ distance > cfg.minDistance then
    some (GestureRecognizer.recognizeSwipeDirection gs)
  else if distance > cfg.minDistance ∧ velocity < cfg.velocityThreshold then some .PAN
  else if gs.currentTouches.length > 1 then
    GestureRecognizer.recognizeMultiTouchGesture cfg gs
  else none

/-- Model of `GestureRecognizer.onTouchEnd`: removes the identifier from
`currentTouches`; when the list becomes empty, classification runs and on
success an event is emitted whose `state` is the spread-copy snapshot taken
before `isRecognized`/`isActive` are updated (the source mutates the flags
after building the event object). -/
noncomputable def GestureRecognizer.onTouchEnd (r : GestureRecognizer)
    (now : ℝ) (touch : TouchPoint) : GestureRecognizer × Option GestureEvent :=
  match r.gestureState, r.isProcessing with
  | some gs, true =>
    let gs1 : GestureState :=
      { gs with
        currentTouches := gs.currentTouches.filter
          (fun t => ¬ t.identifier == touch.identifier) }
    if gs1.currentTouches.length = 0 then
      match GestureRecognizer.recognizeGesture r.config now gs1 with
      | some ty =>
        let ev : GestureEvent := { type := ty, state := gs1, timestamp := now }
        let gs2 : GestureState := { gs1 with isRecognized := true, isActive := false }
        ({ r with gestureState := some gs2, isProcessing := false }, some ev)
      | none => ({ r with gestureState := some gs1 }, none)
    else ({ r with gestureState := some gs1 }, none)
  | _, _ => (r, none)

/-- Model of `GestureRecognizer.reset`. -/
def GestureRecognizer.reset (r : GestureRecognizer) : GestureRecognizer :=
  { r with gestureState := none, isProcessing := false }

/-- One raw touch callback delivered to the recognizer.  `start`/`stop`
carry the `Date.now()` value observed during the call (`stop` is
`onTouchEnd`; `end` is a Lean keyword). -/
inductive TouchEvent
  | start (now : ℝ) (t : TouchPoint)
  | move (t : TouchPoint)
  | stop (now : ℝ) (t : TouchPoint)
  | reset

/-- Apply one touch callback to the recognizer, discarding the return value. -/
noncomputable def GestureRecognizer.step (r : GestureRecognizer) :
    TouchEvent → GestureRecognizer
  | .start now t => r.onTouchStart now t
  | .move t => (r.onTouchMove t).1
  | .stop now t => (r.onTouchEnd now t).1
  | .reset => r.reset

/-- Run a whole event trace against the recognizer. -/
noncomputable def GestureRecognizer.run (r : GestureRecognizer) :
    List TouchEvent → GestureRecognizer
  | [] => r
  | e :: es => GestureRecognizer.run (r.step e) es

/-- Model of `calculateGestureDirection` from `TouchUtils.ts`: dominant axis by
absolute value, with ties falling to the vertical branch. -/
noncomputable def calculateGestureDirection (deltaX deltaY : ℝ) : String :=
  let absX := |deltaX|
  let absY := |deltaY|
  if absX > absY then (if deltaX > 0 then "right" else "left")
  else (if deltaY > 0 then "down" else "up")

/-- The `OptimizationConfig` of `PerformanceOptimizer.ts`. -/
structure OptimizationConfig where
  enableGestureCaching : Bool
  enableMemoryPooling : Bool
  enableLazyLoading : Bool
  enableBatchProcessing : Bool
  maxCacheSize : ℕ
  memoryPoolSize : ℕ
  batchSize : ℕ
  optimizationThreshold : ℝ

/-- A `CacheEntry` of the gesture-result cache.  The `any`-typed payload is
never inspected by the cache logic, so it is modelled as a natural number. -/
structure CacheEntry where
  key : String
  data : ℕ
  timestamp : ℝ
  accessCount : ℕ

/-- A pooled scratch object (`createPooledObject`): five numeric fields. -/
structure PooledObject where
  x : ℝ
  y : ℝ
  timestamp : ℝ
  identifier : ℝ
  pressure : ℝ

/-- Model of `createPooledObject()`: all fields zero. -/
def createPooledObject : PooledObject := ⟨0, 0, 0, 0, 0⟩

/-- Model of `obj.reset()`: sets every field of the pooled object back to zero. -/
def PooledObject.resetFields (_ : PooledObject) : PooledObject := ⟨0, 0, 0, 0, 0⟩

/-- The mutable fields of `PerformanceOptimizer` that the cache/pool claims
touch.  `gestureCache` models the JS `Map<string, CacheEntry>` as the list of
entries in insertion order (the map key of an entry is its `key` field); the
batch-queue fields are not modelled here. -/
structure PerformanceOptimizer where
  config : OptimizationConfig
  gestureCache : List CacheEntry
  memoryPool : List PooledObject

/-- Model of `JS Map.set`: replace the entry with the same key in place (keeping its
position in the iteration order), or append a fresh entry at the end. -/
def mapSet (cache : List CacheEntry) (e : CacheEntry) : List CacheEntry :=
  if cache.any (fun x => x.key == e.key)
  then cache.map (fun x => if x.key == e.key then e else x)
  else cache ++ [e]

/-- Model of `JS Map.delete k`: remove the entry stored under key `k`. -/
def mapDelete (cache : List CacheEntry) (k : String) : List CacheEntry :=
  cache.filter (fun x => ¬ x.key == k)

/-- The scan loop of `evictOldestCacheEntry`: iterate over the entries in
insertion order keeping the first entry whose timestamp is strictly smaller
than the best so far. -/
noncomputable def oldestScan (acc : Option CacheEntry) (l : List CacheEntry) :
    Option CacheEntry :=
  l.foldl
    (fun acc e =>
      match acc with
      | none => some e
      | some b => if e.timestamp < b.timestamp then some e else some b)
    acc

/-- Model of `PerformanceOptimizer.evictOldestCacheEntry`.  The source
guards the delete with `if (oldestKey)`, a JS truthiness test on a
`string | null` value: `null` (empty cache, modelled by the `none` branch)
and the empty string are both falsy, so when the oldest entry is stored
under the key `""` the delete is skipped and nothing is evicted. -/
noncomputable def PerformanceOptimizer.evictOldestCacheEntry
    (o : PerformanceOptimizer) : PerformanceOptimizer :=
  match oldestScan none o.gestureCache with
  | some victim =>
    if victim.key = "" then o
    else { o with gestureCache := mapDelete o.gestureCache victim.key }
  | none => o

/-- Model of `PerformanceOptimizer.cacheGestureResult`: no-op when caching is
disabled; evicts the oldest entry when the cache is at (or beyond) capacity;
then `Map.set`s the new entry with the current time and a zero access count. -/
noncomputable def PerformanceOptimizer.cacheGestureResult
    (o : PerformanceOptimizer) (key : String) (result : ℕ) (now : ℝ) :
    PerformanceOptimizer :=
  if o.config.enableGestureCaching = false then o
  else
    let o1 :=
      if o.gestureCache.length ≥ o.config.maxCacheSize
      then o.evictOldestCacheEntry
      else o
    { o1 with
      gestureCache := mapSet o1.gestureCache
        { key := key, data := result, timestamp := now, accessCount := 0 } }

/-- Model of `initializeMemoryPool`: pre-fill the pool to capacity when pooling is
enabled. -/
def initMemoryPool (cfg : OptimizationConfig) : List PooledObject :=
  if cfg.enableMemoryPooling then List.replicate cfg.memoryPoolSize createPooledObject
  else []

/-- Model of `new PerformanceOptimizer(config)` (cache empty, pool pre-filled). -/
def PerformanceOptimizer.init (cfg : OptimizationConfig) : PerformanceOptimizer :=
  { config := cfg, gestureCache := [], memoryPool := initMemoryPool cfg }

/-- Model of `PerformanceOptimizer.getPooledObject`: pop from the end of the pool
(JS `Array.pop`) when pooling is enabled and the pool is non-empty, else
allocate a fresh object. -/
def PerformanceOptimizer.getPooledObject (o : PerformanceOptimizer) :
    PooledObject × PerformanceOptimizer :=
  if o.config.enableMemoryPooling = true ∧ 0 < o.memoryPool.length then
    ((o.memoryPool.getLast?).getD createPooledObject,
      { o with memoryPool := o.memoryPool.dropLast })
  else (createPooledObject, o)

/-- Model of `PerformanceOptimizer.returnPooledObject`: only while pooling is enabled
and the pool is under capacity, reset the object and push it back; excess
releases are dropped. -/
def PerformanceOptimizer.returnPooledObject (o : PerformanceOptimizer)
    (obj : PooledObject) : PerformanceOptimizer :=
  if o.config.enableMemoryPooling = true ∧
      o.memoryPool.length < o.config.memoryPoolSize then
    { o with memoryPool := o.memoryPool ++ [obj.resetFields] }
  else o

/-- One pool operation. -/
inductive PoolEvent
  | acquire
  | release (obj : PooledObject)

/-- Apply one pool operation. -/
def PerformanceOptimizer.poolStep (o : PerformanceOptimizer) :
    PoolEvent → PerformanceOptimizer
  | .acquire => o.getPooledObject.2
  | .release obj => o.returnPooledObject obj

/-- Run a sequence of pool operations. -/
def PerformanceOptimizer.runPool (o : PerformanceOptimizer) :
    List PoolEvent → PerformanceOptimizer
  | [] => o
  | e :: es => PerformanceOptimizer.runPool (o.poolStep e) es

/-- The per-gesture-type counters of `PerformanceMonitor.ts`. -/
structure GestureMetrics where
  count : ℕ
  successCount : ℕ
  errorCount : ℕ
  averageTime : ℝ
  totalTime : ℝ

/-- Model of `PerformanceMetrics` from `TouchTypes.ts`. -/
structure PerformanceMetrics where
  gestureRecognitionTime : ℝ
  memoryUsage : ℝ
  batteryImpact : ℝ
  errorRate : ℝ
  successRate : ℝ

/-- The counter state of `PerformanceMonitor`: `initializeGestureMetrics`
seeds the map with an entry for every `GestureType` value, so the map is
modelled as a total function on the enum. -/
structure PerformanceMonitor where
  gestureMetrics : GestureType → GestureMetrics
  memoryUsage : ℝ
  batteryImpact : ℝ

/-- Model of `new PerformanceMonitor()`: every counter starts at zero. -/
def PerformanceMonitor.init : PerformanceMonitor :=
  { gestureMetrics := fun _ => ⟨0, 0, 0, 0, 0⟩, memoryUsage := 0, batteryImpact := 0 }

/-- Model of `PerformanceMonitor.recordGesture`: bump the per-type counters; the
timing update is guarded by JS truthiness of `recognitionTime` (skipped for
`undefined` and for `0`). -/
noncomputable def PerformanceMonitor.recordGesture (mon : PerformanceMonitor)
    (ty : GestureType) (success : Bool) (recognitionTime : Option ℝ) :
    PerformanceMonitor :=
  let metrics := mon.gestureMetrics ty
  let m1 : GestureMetrics :=
    { metrics with
      count := metrics.count + 1
      successCount := if success then metrics.successCount + 1 else metrics.successCount
      errorCount := if success then metrics.errorCount else metrics.errorCount + 1 }
  let m2 : GestureMetrics :=
    match recognitionTime with
    | some t =>
      if t ≠ 0 then
        { m1 with
          totalTime := m1.totalTime + t
          averageTime := (m1.totalTime + t) / (m1.count : ℝ) }
      else m1
    | none => m1
  { mon with gestureMetrics := fun g => if g = ty then m2 else mon.gestureMetrics g }

/-- The total gesture count summed over the per-type counters (the
`totalGestures` reduction in `getMetrics`). -/
def PerformanceMonitor.totalGestures (mon : PerformanceMonitor) : ℕ :=
  ∑ g : GestureType, (mon.gestureMetrics g).count

/-- The successful gesture count summed over the per-type counters. -/
def PerformanceMonitor.successfulGestures (mon : PerformanceMonitor) : ℕ :=
  ∑ g : GestureType, (mon.gestureMetrics g).successCount

/-- Model of `PerformanceMonitor.getMetrics`: the aggregate snapshot computed on
demand from the counters. -/
noncomputable def PerformanceMonitor.getMetrics (mon : PerformanceMonitor) :
    PerformanceMetrics :=
  let totalGestures := mon.totalGestures
  let successfulGestures := mon.successfulGestures
  let averageRecognitionTime :=
    (∑ g : GestureType, (mon.gestureMetrics g).averageTime) /
      (Fintype.card GestureType : ℝ)
  { gestureRecognitionTime := averageRecognitionTime
    memoryUsage := mon.memoryUsage
    batteryImpact := mon.batteryImpact
    errorRate :=
      if 0 < totalGestures
      then ((totalGestures : ℝ) - (successfulGestures : ℝ)) / (totalGestures : ℝ)
      else 0
    successRate :=
      if 0 < totalGestures
      then (successfulGestures : ℝ) / (totalGestures : ℝ)
      else 1 }

/-- Model of `TouchTarget` from `TouchTypes.ts`. -/
structure TouchTarget where
  id : String
  x : ℝ
  y : ℝ
  width : ℝ
  height : ℝ
  minSize : ℝ
  accessibilityLabel : Option String := none
  accessibilityHint : Option String := none
  accessibilityRole : Option String := none

/-- A registered gesture listener.  A call may update an ambient world `W`
(its observable side effects) and may throw, reported as `some message`;
effects performed before the throw are kept, as in JS. -/
def Listener (W : Type) : Type := GestureEvent → W → W × Option String

/-- The mutable fields of `TouchControlManager` relevant to dispatch:
the active-touch map, the target registry, the per-type callback lists and
the performance monitor (the feedback manager performs only external
output). -/
structure TouchControlManager (W : Type) where
  activeTouches : List (ℤ × TouchPoint)
  touchTargets : List (String × TouchTarget)
  gestureCallbacks : GestureType → List (Listener W)
  monitor : PerformanceMonitor
  isEnabled : Bool

/-- The `callbacks.forEach` loop of `processGestureEvent`: each callback is
invoked inside `try`/`catch`, so its error (if any) is logged and discarded
and the loop continues with the remaining callbacks. -/
def runCallbacks {W : Type} : List (Listener W) → GestureEvent → W → W
  | [], _, w => w
  | cb :: rest, ev, w => runCallbacks rest ev (cb ev w).1

/-- Model of `TouchControlManager.processGestureEvent`: dispatch the completed event
to every listener registered for its type, then record telemetry. -/
noncomputable def TouchControlManager.processGestureEvent {W : Type}
    (m : TouchControlManager W) (ev : GestureEvent) (w : W) :
    TouchControlManager W × W :=
  let callbacks := m.gestureCallbacks ev.type
  let w1 := runCallbacks callbacks ev w
  ({ m with monitor := m.monitor.recordGesture ev.type true none }, w1)

/-- Model of `TouchControlManager.onGesture`: append the callback to the per-type
list (registration order preserved). -/
def TouchControlManager.onGesture {W : Type} (m : TouchControlManager W)
    (ty : GestureType) (cb : Listener W) : TouchControlManager W :=
  { m with
    gestureCallbacks := fun t =>
      if t = ty then m.gestureCallbacks t ++ [cb] else m.gestureCallbacks t }

/-- Specification reading of dispatch (§4.3/§7 of the spec): every listener
registered for the event's type is invoked exactly once, in registration
order, each invocation independently fault-contained. -/
def invokeEachListener {W : Type} (cbs : List (Listener W)) (ev : GestureEvent)
    (w : W) : W :=
  cbs.foldl (fun wa cb => (cb ev wa).1) w

/-- The `GestureConfig` used by the repository's own test-suite
(`GestureRecognizer.test.ts`). -/
def cfgTest : GestureConfig :=
  { minDistance := 10
    maxDistance := 1000
    minDuration := 100
    maxDuration := 2000
    velocityThreshold := 0.3
    scaleThreshold := 0.1
    rotationThreshold := 15 }

/-- First finger of the example traces. -/
def touchA : TouchPoint := { x := 0, y := 0, timestamp := 0, identifier := 0 }

/-- Second, concurrent finger of the example traces. -/
def touchB : TouchPoint := { x := 0, y := 10, timestamp := 100, identifier := 1 }

/-- A later finger placed after a failed classification. -/
def touchC : TouchPoint := { x := 1, y := 0, timestamp := 250, identifier := 2 }

/-- A finger placed after the recognizer has returned to idle. -/
def touchD : TouchPoint := { x := 5, y := 5, timestamp := 400, identifier := 3 }

/-- The state written by a successful `onTouchMove` call just before the
multi-touch recomputation: the `currentTouches` update and the
delta/velocity assignments of the source body, named here so that proofs
can speak about it compactly (definitionally equal to the corresponding
`let`-bindings of `onTouchMove`). -/
noncomputable def moveState (gs : GestureState) (t : TouchPoint) : GestureState :=
  { gs with
    currentTouches :=
      if gs.currentTouches.findIdx (fun x => x.identifier == t.identifier) <
          gs.currentTouches.length
      then gs.currentTouches.set
        (gs.currentTouches.findIdx (fun x => x.identifier == t.identifier)) t
      else gs.currentTouches ++ [t]
    deltaX := t.x - gs.startTouches.headI.x
    deltaY := t.y - gs.startTouches.headI.y
    velocityX :=
      if t.timestamp - gs.startTouches.headI.timestamp > 0
      then (t.x - gs.startTouches.headI.x) / (t.timestamp - gs.startTouches.headI.timestamp)
      else gs.velocityX
    velocityY :=
      if t.timestamp - gs.startTouches.headI.timestamp > 0
      then (t.y - gs.startTouches.headI.y) / (t.timestamp - gs.startTouches.headI.timestamp)
      else gs.velocityY }

/-- The `GestureState` created by `onTouchStart` for a first touch. -/
def startState (now : ℝ) (t : TouchPoint) : GestureState :=
  { startTime := now
    startTouches := [t]
    currentTouches := [t]
    deltaX := 0
    deltaY := 0
    velocityX := 0
    velocityY := 0
    scale := 1
    rotation := 0
    isActive := true
    isRecognized := false }

/-- Recognizer state after `start touchA; move touchB`: two concurrent
touches, deltas `(0,10)` (distance exactly `minDistance = 10`), velocity
`(0, 1/10)` and rotation `90` degrees. -/
noncomputable def gsWedgeMove : GestureState :=
  { startTime := 0
    startTouches := [touchA]
    currentTouches := [touchA, touchB]
    deltaX := 0
    deltaY := 10
    velocityX := 0
    velocityY := 1 / 10
    scale := 1
    rotation := 90
    isActive := true
    isRecognized := false }

/-- The same interaction after `touchB` is released (an early release while another touch is still down). -/
noncomputable def gsWedgeDown : GestureState :=
  { gsWedgeMove with currentTouches := [touchA] }

/-- The same interaction after the final release of `touchA`: all touches
gone, classifier consulted. -/
noncomputable def gsWedgeFinal : GestureState :=
  { gsWedgeMove with currentTouches := [] }

/-- State of the wedged recognizer after a later `move touchC`. -/
noncomputable def gsEscape : GestureState :=
  { startTime := 0
    startTouches := [touchA]
    currentTouches := [touchC]
    deltaX := 1
    deltaY := 0
    velocityX := 1 / 250
    velocityY := 0
    scale := 1
    rotation := 90
    isActive := true
    isRecognized := false }

/-- The escape state after `touchC` is released. -/
noncomputable def gsEscapeFinal : GestureState :=
  { gsEscape with currentTouches := [] }

/-- The first three callbacks of the wedge interaction. -/
def wedgePrefix : List TouchEvent :=
  [TouchEvent.start 0 touchA, TouchEvent.move touchB, TouchEvent.stop 150 touchB]

/-- The full wedge interaction: two concurrent touches, full release,
no rule of the classifier matches. -/
def wedgeTrace : List TouchEvent :=
  [TouchEvent.start 0 touchA, TouchEvent.move touchB, TouchEvent.stop 150 touchB,
    TouchEvent.stop 200 touchA]

/-- Structural invariant of every reachable recognizer state: the start
snapshot always holds exactly the one touch that opened the gesture (the
source never appends to `startTouches`), `scale` stays at its initial `1`,
`currentTouches` holds no duplicate identifiers, and while a gesture is being
processed its state is active and unrecognized. -/
def RecognizerInv (r : GestureRecognizer) : Prop :=
  ∀ gs, r.gestureState = some gs →
    gs.startTouches.length = 1 ∧ gs.scale = 1 ∧
    (gs.currentTouches.map (fun t => t.identifier)).Nodup ∧
    (r.isProcessing = true → gs.isActive = true ∧ gs.isRecognized = false)

/-- A small optimizer configuration used by the concrete cache/pool
examples: caching and pooling enabled, cache capacity 2, pool capacity 1. -/
def cfgOptEx : OptimizationConfig :=
  { enableGestureCaching := true
    enableMemoryPooling := true
    enableLazyLoading := true
    enableBatchProcessing := true
    maxCacheSize := 2
    memoryPoolSize := 1
    batchSize := 10
    optimizationThreshold := 1 }

/-- A full cache (capacity 2) whose older entry is the more-accessed one. -/
def optEx : PerformanceOptimizer :=
  { config := cfgOptEx
    gestureCache := [⟨"a", 1, 5, 3⟩, ⟨"b", 2, 3, 0⟩]
    memoryPool := [] }

/-- A full cache (capacity 2) about to be written under an existing key. -/
def optDup : PerformanceOptimizer :=
  { config := cfgOptEx
    gestureCache := [⟨"a", 0, 0, 0⟩, ⟨"b", 0, 1, 0⟩]
    memoryPool := [] }

/-- A full cache (capacity 2) whose oldest entry is stored under the empty
string key, which the eviction guard's JS truthiness test treats as falsy. -/
def optEmptyKey : PerformanceOptimizer :=
  { config := cfgOptEx
    gestureCache := [⟨"", 0, 0, 0⟩, ⟨"x", 0, 5, 0⟩]
    memoryPool := [] }

end TouchControl

namespace TouchControl

/-- Setting an index back to the element it already holds is the identity. -/
theorem list_set_get_self {α : Type} (xs : List α) (i : ℕ) (h : i < xs.length) :
    xs.set i (xs.get ⟨i, h⟩) = xs := by
  apply List.ext_getElem
  · simp
  · intro n h1 h2
    rcases eq_or_ne i n with rfl | hne
    · simp
    · rw [List.getElem_set_ne hne]

/-- When `findIdx` runs off the end, no element satisfies the predicate. -/
theorem findIdx_ge_length_all_false {α : Type} (l : List α) (p : α → Bool)
    (h : ¬ l.findIdx p < l.length) : ∀ x ∈ l, p x = false := by
  intro x hx
  by_contra hc
  simp only [Bool.not_eq_false] at hc
  exact h (List.findIdx_lt_length_of_exists ⟨x, hx, hc⟩)

/-- Setting an index to an element with the same image under `f` preserves
`Nodup` of the mapped list. -/
theorem nodup_map_set {α β : Type} (l : List α) (f : α → β) (i : ℕ)
    (h : i < l.length) (t : α) (hft : f t = f (l.get ⟨i, h⟩))
    (hn : (l.map f).Nodup) : ((l.set i t).map f).Nodup := by
  rw [List.map_set]
  have hgt : f t = (l.map f).get ⟨i, by simpa using h⟩ := by simpa using hft
  rw [hgt, list_set_get_self]
  exact hn

/-- The `currentTouches` update performed by `onTouchMove` preserves
no-duplicate identifiers. -/
theorem nodup_touchUpdate (l : List TouchPoint) (t : TouchPoint)
    (h : (l.map (fun x => x.identifier)).Nodup) :
    (((if l.findIdx (fun x => x.identifier == t.identifier) < l.length
        then l.set (l.findIdx (fun x => x.identifier == t.identifier)) t
        else l ++ [t])).map (fun x => x.identifier)).Nodup := by
  split
  case isTrue hlt =>
    have hget := @List.findIdx_getElem _ (fun x => x.identifier == t.identifier) l hlt
    simp only [beq_iff_eq] at hget
    refine nodup_map_set l _ _ hlt t ?_ h
    simpa using hget.symm
  case isFalse hge =>
    have hall := findIdx_ge_length_all_false l _ hge
    have hnotin : t.identifier ∉ l.map (fun x => x.identifier) := by
      intro hmem
      rcases List.mem_map.mp hmem with ⟨x, hx, hxe⟩
      have hfx := hall x hx
      simp [hxe] at hfx
    simp [List.nodup_append, h, hnotin]

/-- Model of `calculateMultiTouchProperties` only writes `scale` and `rotation`. -/
theorem calcMulti_preserve (gs : GestureState) :
    (GestureRecognizer.calculateMultiTouchProperties gs).startTouches = gs.startTouches ∧
    (GestureRecognizer.calculateMultiTouchProperties gs).currentTouches = gs.currentTouches ∧
    (GestureRecognizer.calculateMultiTouchProperties gs).isActive = gs.isActive ∧
    (GestureRecognizer.calculateMultiTouchProperties gs).isRecognized = gs.isRecognized ∧
    (GestureRecognizer.calculateMultiTouchProperties gs).startTime = gs.startTime := by
  unfold GestureRecognizer.calculateMultiTouchProperties
  split <;> simp

/-- With a single-element start snapshot the start distance is `0`, so the
`startDistance > 0` guard fails and `scale` keeps its previous value. -/
theorem calcMulti_scale_of_single (gs : GestureState)
    (h : gs.startTouches.length = 1) :
    (GestureRecognizer.calculateMultiTouchProperties gs).scale = gs.scale := by
  unfold GestureRecognizer.calculateMultiTouchProperties
  split
  · rfl
  · obtain ⟨s, hs⟩ := List.length_eq_one.mp h
    simp [hs, Real.sqrt_zero]

/-- The invariant holds for a freshly constructed recognizer. -/
theorem inv_init (cfg : GestureConfig) :
    RecognizerInv (GestureRecognizer.init cfg) := by
  intro gs hgs
  simp [GestureRecognizer.init] at hgs

/-- Model of `onTouchStart` preserves the recognizer invariant. -/
theorem inv_onTouchStart (r : GestureRecognizer) (now : ℝ) (t : TouchPoint)
    (h : RecognizerInv r) : RecognizerInv (r.onTouchStart now t) := by
  unfold GestureRecognizer.onTouchStart
  split
  · exact h
  · intro gs hgs
    obtain rfl : _ = gs := by simpa using hgs
    refine ⟨rfl, rfl, by simp, fun _ => ⟨rfl, rfl⟩⟩

/-- Model of `onTouchMove` preserves the recognizer invariant. -/
theorem inv_onTouchMove (r : GestureRecognizer) (t : TouchPoint)
    (h : RecognizerInv r) : RecognizerInv (r.onTouchMove t).1 := by
  obtain ⟨cfg, ogs, proc⟩ := r
  cases ogs with
  | none => cases proc <;> simpa [GestureRecognizer.onTouchMove] using h
  | some gs =>
    cases proc with
    | false => simpa [GestureRecognizer.onTouchMove] using h
    | true =>
      obtain ⟨h1, h2, h3, h4⟩ := h gs rfl
      intro gs2 hgs2
      simp only [GestureRecognizer.onTouchMove, Option.some.injEq] at hgs2
      set gs1 : GestureState :=
        { gs with
          currentTouches :=
            if gs.currentTouches.findIdx (fun x => x.identifier == t.identifier) <
                gs.currentTouches.length
            then gs.currentTouches.set
              (gs.currentTouches.findIdx (fun x => x.identifier == t.identifier)) t
            else gs.currentTouches ++ [t]
          deltaX := t.x - gs.startTouches.headI.x
          deltaY := t.y - gs.startTouches.headI.y
          velocityX :=
            if t.timestamp - gs.startTouches.headI.timestamp > 0
            then (t.x - gs.startTouches.headI.x) / (t.timestamp - gs.startTouches.headI.timestamp)
            else gs.velocityX
          velocityY :=
            if t.timestamp - gs.startTouches.headI.timestamp > 0
            then (t.y - gs.startTouches.headI.y) / (t.timestamp - gs.startTouches.headI.timestamp)
            else gs.velocityY } with hgs1
      have hnodup1 : (gs1.currentTouches.map (fun x => x.identifier)).Nodup := by
        rw [hgs1]
        exact nodup_touchUpdate gs.currentTouches t h3
      have hstart1 : gs1.startTouches.length = 1 := by rw [hgs1]; exact h1
      have hscale1 : gs1.scale = 1 := by rw [hgs1]; exact h2
      have hgs2d :
          (if gs1.currentTouches.length > 1
           then GestureRecognizer.calculateMultiTouchProperties gs1
           else gs1) = gs2 := by
        rw [← hgs2]
      rw [← hgs2d]
      split
      · obtain ⟨p1, p2, p3, p4, _⟩ := calcMulti_preserve gs1
        refine ⟨by rw [p1]; exact hstart1,
          by rw [calcMulti_scale_of_single gs1 hstart1]; exact hscale1,
          by rw [p2]; exact hnodup1, fun _ => ?_⟩
        rw [p3, p4, hgs1]
        exact (h4 rfl)
      · exact ⟨hstart1, hscale1, hnodup1, fun _ => by rw [hgs1]; exact h4 rfl⟩

/-- Model of `onTouchEnd` preserves the recognizer invariant. -/
theorem inv_onTouchEnd (r : GestureRecognizer) (now : ℝ) (t : TouchPoint)
    (h : RecognizerInv r) : RecognizerInv (r.onTouchEnd now t).1 := by
  obtain ⟨cfg, ogs, proc⟩ := r
  cases ogs with
  | none => cases proc <;> simpa [GestureRecognizer.onTouchEnd] using h
  | some gs =>
    cases proc with
    | false => simpa [GestureRecognizer.onTouchEnd] using h
    | true =>
      obtain ⟨h1, h2, h3, h4⟩ := h gs rfl
      have hnodup1 :
          ((gs.currentTouches.filter (fun x => ¬ x.identifier == t.identifier)).map
            (fun x => x.identifier)).Nodup :=
        h3.sublist (List.Sublist.map _ (List.filter_sublist gs.currentTouches))
      simp only [GestureRecognizer.onTouchEnd]
      split
      · split
        · intro gs2 hgs2
          obtain rfl : _ = gs2 := by simpa using hgs2
          exact ⟨h1, h2, by simpa using hnodup1, fun hp => by simp at hp⟩
        · intro gs2 hgs2
          obtain rfl : _ = gs2 := by simpa using hgs2
          exact ⟨h1, h2, by simpa using hnodup1, fun _ => h4 rfl⟩
      · intro gs2 hgs2
        obtain rfl : _ = gs2 := by simpa using hgs2
        exact ⟨h1, h2, by simpa using hnodup1, fun _ => h4 rfl⟩

/-- Model of `reset` restores the invariant unconditionally. -/
theorem inv_reset (r : GestureRecognizer) : RecognizerInv r.reset := by
  intro gs hgs
  simp [GestureRecognizer.reset] at hgs

/-- Every single callback preserves the recognizer invariant. -/
theorem inv_step (r : GestureRecognizer) (e : TouchEvent)
    (h : RecognizerInv r) : RecognizerInv (r.step e) := by
  cases e with
  | start now t => exact inv_onTouchStart r now t h
  | move t => exact inv_onTouchMove r t h
  | stop now t => exact inv_onTouchEnd r now t h
  | reset => exact inv_reset r

/-- The invariant holds along every event trace. -/
theorem inv_run (r : GestureRecognizer) (evs : List TouchEvent)
    (h : RecognizerInv r) : RecognizerInv (r.run evs) := by
  induction evs generalizing r with
  | nil => exact h
  | cons e es ih => exact ih (r.step e) (inv_step r e h)

/-- C4: under every interleaving of `onTouchStart`, `onTouchMove` and
`onTouchEnd` calls with arbitrary touch identifiers, the gesture state's
`currentTouches` list never contains two entries with the same identifier
(`onTouchMove` updates the matching entry in place or appends a new one,
`onTouchEnd` removes every entry with the ended identifier). -/
theorem claim_c4 (cfg : GestureConfig) (evs : List TouchEvent)
    (gs : GestureState)
    (h : ((GestureRecognizer.init cfg).run evs).gestureState = some gs) :
    (gs.currentTouches.map (fun t => t.identifier)).Nodup :=
  (inv_run (GestureRecognizer.init cfg) evs (inv_init cfg) gs h).2.2.1

/-- Witness for C4 at a concrete one-event trace. -/
theorem claim_c4_witness :
    ∃ gs, ((GestureRecognizer.init cfgTest).run [TouchEvent.start 0 touchA]).gestureState = some gs
      ∧ (gs.currentTouches.map (fun t => t.identifier)).Nodup :=
  ⟨_, rfl, claim_c4 cfgTest [TouchEvent.start 0 touchA] _ rfl⟩

/-- In the multi-touch case, `calculateMultiTouchProperties` sets `scale`
by the `startDistance > 0` guard. -/
theorem calcMulti_scale_eq (gs : GestureState)
    (h : ¬ gs.currentTouches.length < 2) :
    (GestureRecognizer.calculateMultiTouchProperties gs).scale =
      (if Real.sqrt
            ((((gs.startTouches.drop 1).headD gs.startTouches.headI).x -
                gs.startTouches.headI.x) ^ 2 +
              (((gs.startTouches.drop 1).headD gs.startTouches.headI).y -
                gs.startTouches.headI.y) ^ 2) > 0
       then Real.sqrt
              (((gs.currentTouches.drop 1).headI.x - gs.currentTouches.headI.x) ^ 2 +
                ((gs.currentTouches.drop 1).headI.y - gs.currentTouches.headI.y) ^ 2) /
            Real.sqrt
              ((((gs.startTouches.drop 1).headD gs.startTouches.headI).x -
                  gs.startTouches.headI.x) ^ 2 +
                (((gs.startTouches.drop 1).headD gs.startTouches.headI).y -
                  gs.startTouches.headI.y) ^ 2)
       else gs.scale) := by
  unfold GestureRecognizer.calculateMultiTouchProperties
  rw [if_neg h]

/-- In the multi-touch case, `calculateMultiTouchProperties` sets `rotation`
to the degree angle difference of the two pairs. -/
theorem calcMulti_rotation_eq (gs : GestureState)
    (h : ¬ gs.currentTouches.length < 2) :
    (GestureRecognizer.calculateMultiTouchProperties gs).rotation =
      (atan2 ((gs.currentTouches.drop 1).headI.y - gs.currentTouches.headI.y)
          ((gs.currentTouches.drop 1).headI.x - gs.currentTouches.headI.x) -
        atan2 (((gs.startTouches.drop 1).headD gs.startTouches.headI).y -
            gs.startTouches.headI.y)
          (((gs.startTouches.drop 1).headD gs.startTouches.headI).x -
            gs.startTouches.headI.x)) * (180 / Real.pi) := by
  unfold GestureRecognizer.calculateMultiTouchProperties
  rw [if_neg h]

/-- A successful `onTouchMove` equals the multi-touch-guarded update of
`moveState` (pure unfolding of the source body). -/
theorem onTouchMove_eq (cfg : GestureConfig) (gs : GestureState) (t : TouchPoint) :
    ((⟨cfg, some gs, true⟩ : GestureRecognizer).onTouchMove t) =
      (⟨cfg,
        some (if (moveState gs t).currentTouches.length > 1
          then GestureRecognizer.calculateMultiTouchProperties (moveState gs t)
          else moveState gs t), true⟩,
       some (if (moveState gs t).currentTouches.length > 1
          then GestureRecognizer.calculateMultiTouchProperties (moveState gs t)
          else moveState gs t)) := rfl

/-- Model of `moveState` does not touch the start snapshot. -/
theorem moveState_startTouches (gs : GestureState) (t : TouchPoint) :
    (moveState gs t).startTouches = gs.startTouches := rfl

/-- Model of `moveState` does not touch `scale`. -/
theorem moveState_scale (gs : GestureState) (t : TouchPoint) :
    (moveState gs t).scale = gs.scale := rfl

/-- Model of `onTouchMove`, on any recognizer satisfying the structural invariant,
computes the multi-touch properties of the state it returns exactly as the
source formulas prescribe. -/
theorem onTouchMove_multi_props (r : GestureRecognizer)
    (hinv : RecognizerInv r) (t : TouchPoint) (gs2 : GestureState)
    (h : (r.onTouchMove t).2 = some gs2)
    (hlen : 2 ≤ gs2.currentTouches.length) :
    (Real.sqrt
        ((((gs2.startTouches.drop 1).headD gs2.startTouches.headI).x -
            gs2.startTouches.headI.x) ^ 2 +
          (((gs2.startTouches.drop 1).headD gs2.startTouches.headI).y -
            gs2.startTouches.headI.y) ^ 2) = 0 → gs2.scale = 1) ∧
    (Real.sqrt
        ((((gs2.startTouches.drop 1).headD gs2.startTouches.headI).x -
            gs2.startTouches.headI.x) ^ 2 +
          (((gs2.startTouches.drop 1).headD gs2.startTouches.headI).y -
            gs2.startTouches.headI.y) ^ 2) ≠ 0 →
      gs2.scale =
        Real.sqrt
          (((gs2.currentTouches.drop 1).headI.x - gs2.currentTouches.headI.x) ^ 2 +
            ((gs2.currentTouches.drop 1).headI.y - gs2.currentTouches.headI.y) ^ 2) /
        Real.sqrt
          ((((gs2.startTouches.drop 1).headD gs2.startTouches.headI).x -
              gs2.startTouches.headI.x) ^ 2 +
            (((gs2.startTouches.drop 1).headD gs2.startTouches.headI).y -
              gs2.startTouches.headI.y) ^ 2)) ∧
    gs2.rotation =
      (atan2 ((gs2.currentTouches.drop 1).headI.y - gs2.currentTouches.headI.y)
          ((gs2.currentTouches.drop 1).headI.x - gs2.currentTouches.headI.x) -
        atan2 (((gs2.startTouches.drop 1).headD gs2.startTouches.headI).y -
            gs2.startTouches.headI.y)
          (((gs2.startTouches.drop 1).headD gs2.startTouches.headI).x -
            gs2.startTouches.headI.x)) * (180 / Real.pi) := by
  obtain ⟨cfg, ogs, proc⟩ := r
  cases ogs with
  | none => cases proc <;> simp [GestureRecognizer.onTouchMove] at h
  | some gs =>
    cases proc with
    | false => simp [GestureRecognizer.onTouchMove] at h
    | true =>
      obtain ⟨h1, h2, h3, h4⟩ := hinv gs rfl
      obtain ⟨s, hs⟩ := List.length_eq_one.mp h1
      rw [onTouchMove_eq] at h
      simp only [Option.some.injEq] at h
      split at h
      case isTrue hgt =>
        subst h
        have hnlt : ¬ (moveState gs t).currentTouches.length < 2 := by omega
        have hpre := calcMulti_preserve (moveState gs t)
        have hstv : (GestureRecognizer.calculateMultiTouchProperties
            (moveState gs t)).startTouches = [s] := by
          rw [hpre.1, moveState_startTouches, hs]
        refine ⟨?_, ?_, ?_⟩
        · intro _
          rw [calcMulti_scale_eq _ hnlt, moveState_startTouches, hs]
          simp [moveState_scale, h2]
        · intro hne
          exfalso
          apply hne
          rw [hstv]
          simp [Real.sqrt_zero]
        · rw [calcMulti_rotation_eq _ hnlt, hpre.1, hpre.2.1]
      case isFalse hle =>
        subst h
        simp only [gt_iff_lt, not_lt] at hle
        omega

/-- C2: whenever at least two touches are active, each `onTouchMove` call
recomputes the gesture state's `scale` as the distance between the first two
entries of `currentTouches` (append order) divided by the distance between
the first two entries of `startTouches` (append order, the missing second
entry falling back to the first as in the source), with the scale guarded to
`1` when that start distance equals `0`; `rotation` is likewise recomputed
as the angle difference between the same two pairs, in degrees. -/
theorem claim_c2 (cfg : GestureConfig) (evs : List TouchEvent) (t : TouchPoint)
    (gs2 : GestureState)
    (h : (((GestureRecognizer.init cfg).run evs).onTouchMove t).2 = some gs2)
    (hlen : 2 ≤ gs2.currentTouches.length) :
    (Real.sqrt
        ((((gs2.startTouches.drop 1).headD gs2.startTouches.headI).x -
            gs2.startTouches.headI.x) ^ 2 +
          (((gs2.startTouches.drop 1).headD gs2.startTouches.headI).y -
            gs2.startTouches.headI.y) ^ 2) = 0 → gs2.scale = 1) ∧
    (Real.sqrt
        ((((gs2.startTouches.drop 1).headD gs2.startTouches.headI).x -
            gs2.startTouches.headI.x) ^ 2 +
          (((gs2.startTouches.drop 1).headD gs2.startTouches.headI).y -
            gs2.startTouches.headI.y) ^ 2) ≠ 0 →
      gs2.scale =
        Real.sqrt
          (((gs2.currentTouches.drop 1).headI.x - gs2.currentTouches.headI.x) ^ 2 +
            ((gs2.currentTouches.drop 1).headI.y - gs2.currentTouches.headI.y) ^ 2) /
        Real.sqrt
          ((((gs2.startTouches.drop 1).headD gs2.startTouches.headI).x -
              gs2.startTouches.headI.x) ^ 2 +
            (((gs2.startTouches.drop 1).headD gs2.startTouches.headI).y -
              gs2.startTouches.headI.y) ^ 2)) ∧
    gs2.rotation =
      (atan2 ((gs2.currentTouches.drop 1).headI.y - gs2.currentTouches.headI.y)
          ((gs2.currentTouches.drop 1).headI.x - gs2.currentTouches.headI.x) -
        atan2 (((gs2.startTouches.drop 1).headD gs2.startTouches.headI).y -
            gs2.startTouches.headI.y)
          (((gs2.startTouches.drop 1).headD gs2.startTouches.headI).x -
            gs2.startTouches.headI.x)) * (180 / Real.pi) :=
  onTouchMove_multi_props ((GestureRecognizer.init cfg).run evs)
    (inv_run (GestureRecognizer.init cfg) evs (inv_init cfg)) t gs2 h hlen

/-- Witness for C2: a concrete two-finger move (0,0) then (0,10) keeps
`scale` at `1` because the start snapshot holds a single touch. -/
theorem claim_c2_witness :
    ∃ gs2,
      (((GestureRecognizer.init cfgTest).run [TouchEvent.start 0 touchA]).onTouchMove touchB).2 =
        some gs2 ∧ 2 ≤ gs2.currentTouches.length ∧ gs2.scale = 1 := by
  have hrun : (GestureRecognizer.init cfgTest).run [TouchEvent.start 0 touchA] =
      ⟨cfgTest, some (startState 0 touchA), true⟩ := rfl
  have hcur : (moveState (startState 0 touchA) touchB).currentTouches = [touchA, touchB] := by
    simp [moveState, startState, touchA, touchB, List.findIdx_cons, List.findIdx_nil]
  have hgt : (moveState (startState 0 touchA) touchB).currentTouches.length > 1 := by
    rw [hcur]; norm_num
  have hmove :
      (((GestureRecognizer.init cfgTest).run [TouchEvent.start 0 touchA]).onTouchMove touchB).2 =
        some (GestureRecognizer.calculateMultiTouchProperties
          (moveState (startState 0 touchA) touchB)) := by
    rw [hrun, onTouchMove_eq]
    simp [if_pos hgt]
  have hlen : 2 ≤ (GestureRecognizer.calculateMultiTouchProperties
      (moveState (startState 0 touchA) touchB)).currentTouches.length := by
    rw [(calcMulti_preserve _).2.1, hcur]; norm_num
  refine ⟨_, hmove, hlen, ?_⟩
  refine (claim_c2 cfgTest [TouchEvent.start 0 touchA] touchB _ hmove hlen).1 ?_
  rw [(calcMulti_preserve _).1, moveState_startTouches]
  simp [startState, Real.sqrt_zero]

/-- Shape of a successful `onTouchEnd` on an invariant-respecting
recognizer: the emitted event snapshot still carries the pre-classification
flags (the source copies the state before setting them), the internal state
is then marked recognized/inactive, and processing stops. -/
theorem onTouchEnd_some_shape (r : GestureRecognizer) (hinv : RecognizerInv r)
    (now : ℝ) (t : TouchPoint) (ev : GestureEvent)
    (h : (r.onTouchEnd now t).2 = some ev) :
    ev.state.isRecognized = false ∧ ev.state.isActive = true ∧
    (r.onTouchEnd now t).1.isProcessing = false ∧
    (r.onTouchEnd now t).1.gestureState =
      some { ev.state with isRecognized := true, isActive := false } := by
  obtain ⟨cfg, ogs, proc⟩ := r
  cases ogs with
  | none => cases proc <;> simp [GestureRecognizer.onTouchEnd] at h
  | some gs =>
    cases proc with
    | false => simp [GestureRecognizer.onTouchEnd] at h
    | true =>
      obtain ⟨h1, h2, h3, h4⟩ := hinv gs rfl
      revert h
      simp only [GestureRecognizer.onTouchEnd]
      split
      · split
        · intro h
          obtain rfl := Option.some.inj h
          exact ⟨by simpa using (h4 rfl).2, by simpa using (h4 rfl).1, rfl, rfl⟩
        · intro h
          simp at h
      · intro h
        simp at h

/-- C3 (amended): whenever `onTouchEnd` successfully classifies a gesture,
the returned `GestureEvent` carries a snapshot taken before the final flag
update, so the snapshot has `isRecognized = false` and `isActive = true`;
the internal state is then marked `isRecognized = true`, `isActive = false`
(without affecting the returned copy) and the recognizer leaves the
processing state. -/
theorem claim_c3 (cfg : GestureConfig) (evs : List TouchEvent) (now : ℝ)
    (t : TouchPoint) (ev : GestureEvent)
    (h : (((GestureRecognizer.init cfg).run evs).onTouchEnd now t).2 = some ev) :
    ev.state.isRecognized = false ∧ ev.state.isActive = true ∧
    (((GestureRecognizer.init cfg).run evs).onTouchEnd now t).1.isProcessing = false ∧
    (((GestureRecognizer.init cfg).run evs).onTouchEnd now t).1.gestureState =
      some { ev.state with isRecognized := true, isActive := false } :=
  onTouchEnd_some_shape ((GestureRecognizer.init cfg).run evs)
    (inv_run (GestureRecognizer.init cfg) evs (inv_init cfg)) now t ev h

/-- The concrete TAP interaction used against C3: a single touch placed at
(0,0) at time 0 and released in place at time 100 classifies as TAP. -/
theorem c3_end_eq :
    (((GestureRecognizer.init cfgTest).run [TouchEvent.start 0 touchA]).onTouchEnd
        100 touchA).2 =
      some { type := GestureType.TAP,
             state := { startState 0 touchA with currentTouches := [] },
             timestamp := 100 } := by
  show ((⟨cfgTest, some (startState 0 touchA), true⟩ : GestureRecognizer).onTouchEnd
      100 touchA).2 = _
  norm_num [GestureRecognizer.onTouchEnd, GestureRecognizer.recognizeGesture,
    startState, touchA, cfgTest, List.filter, Real.sqrt_zero]

/-- Counterexample to C3 as stated: the snapshot carried by the emitted TAP
event has `isRecognized = false` and `isActive = true`, not the claimed
`isRecognized = true` / `isActive = false`. -/
theorem claim_c3_counterexample :
    ∃ ev,
      (((GestureRecognizer.init cfgTest).run [TouchEvent.start 0 touchA]).onTouchEnd
          100 touchA).2 = some ev ∧
      ev.state.isRecognized = false ∧ ev.state.isActive = true := by
  refine ⟨_, c3_end_eq, ?_, ?_⟩ <;> rfl

/-- Witness for the amended C3 at the concrete TAP interaction. -/
theorem claim_c3_witness :
    ∃ ev,
      (((GestureRecognizer.init cfgTest).run [TouchEvent.start 0 touchA]).onTouchEnd
          100 touchA).2 = some ev ∧
      ev.state.isRecognized = false ∧
      (((GestureRecognizer.init cfgTest).run [TouchEvent.start 0 touchA]).onTouchEnd
          100 touchA).1.isProcessing = false := by
  obtain ⟨hrec, _, hproc, _⟩ :=
    claim_c3 cfgTest [TouchEvent.start 0 touchA] 100 touchA _ c3_end_eq
  exact ⟨_, c3_end_eq, hrec, hproc⟩

/-- Square root of 100. -/
theorem sqrt_hundred : Real.sqrt 100 = 10 := by
  rw [show (100 : ℝ) = 10 ^ 2 by norm_num, Real.sqrt_sq (by norm_num : (0:ℝ) ≤ 10)]

/-- Square root of 1/100. -/
theorem sqrt_one_div_hundred : Real.sqrt (1 / 100) = 1 / 10 := by
  rw [show (1 / 100 : ℝ) = (1 / 10) ^ 2 by norm_num,
    Real.sqrt_sq (by norm_num : (0:ℝ) ≤ 1 / 10)]

/-- Model of `Math.atan2(0, 0) = 0`. -/
theorem atan2_zero_zero : atan2 0 0 = 0 := by
  simp [atan2]

/-- Model of `Math.atan2(10, 0) = π/2`. -/
theorem atan2_ten_zero : atan2 10 0 = Real.pi / 2 := by
  norm_num [atan2]

/-- Converting the quarter turn to degrees. -/
theorem pi_half_deg : Real.pi / 2 * (180 / Real.pi) = 90 := by
  field_simp
  ring

/-- Model of `moveState` of the wedge interaction, before the multi-touch pass. -/
theorem wedge_moveState_eq :
    moveState (startState 0 touchA) touchB = { gsWedgeMove with rotation := 0 } := by
  norm_num [moveState, startState, touchA, touchB, gsWedgeMove,
    List.findIdx_cons, List.findIdx_nil]
  simp

/-- The multi-touch pass of the wedge interaction: scale keeps `1` (start
distance zero) and rotation becomes `90` degrees. -/
theorem wedge_calc_eq :
    GestureRecognizer.calculateMultiTouchProperties { gsWedgeMove with rotation := 0 } =
      gsWedgeMove := by
  unfold GestureRecognizer.calculateMultiTouchProperties
  norm_num [gsWedgeMove, touchA, touchB, Real.sqrt_zero, atan2_zero_zero,
    atan2_ten_zero, pi_half_deg]

/-- The move step of the wedge interaction. -/
theorem wedge_move_eq :
    ((⟨cfgTest, some (startState 0 touchA), true⟩ : GestureRecognizer).onTouchMove touchB).1 =
      ⟨cfgTest, some gsWedgeMove, true⟩ := by
  rw [onTouchMove_eq]
  simp only [wedge_moveState_eq, wedge_calc_eq]
  norm_num [gsWedgeMove]

/-- Partial release of `touchB`: no classification is attempted. -/
theorem wedge_down_eq :
    ((⟨cfgTest, some gsWedgeMove, true⟩ : GestureRecognizer).onTouchEnd 150 touchB).1 =
      ⟨cfgTest, some gsWedgeDown, true⟩ := by
  simp only [GestureRecognizer.onTouchEnd]
  norm_num [gsWedgeDown, gsWedgeMove, touchA, touchB]

/-- After the first three callbacks the recognizer tracks only `touchA`. -/
theorem wedge_run3_eq :
    (GestureRecognizer.init cfgTest).run wedgePrefix = ⟨cfgTest, some gsWedgeDown, true⟩ := by
  simp only [wedgePrefix, GestureRecognizer.run, GestureRecognizer.step]
  rw [show (GestureRecognizer.init cfgTest).onTouchStart 0 touchA =
      ⟨cfgTest, some (startState 0 touchA), true⟩ from rfl]
  rw [wedge_move_eq, wedge_down_eq]

/-- No rule of the classifier accepts the final wedge state: the distance is
exactly `minDistance`, the velocity is below the threshold, and by the time
the classifier runs `currentTouches` is already empty, so the multi-touch
branch is unreachable and the result is `none`. -/
theorem recognize_wedge_none :
    GestureRecognizer.recognizeGesture cfgTest 200 gsWedgeFinal = none := by
  norm_num [GestureRecognizer.recognizeGesture, cfgTest, gsWedgeFinal, gsWedgeMove,
    sqrt_hundred, sqrt_one_div_hundred]

/-- The final release of the wedge interaction: all touches gone, the
classifier returns `none`, no event is emitted and `isProcessing` stays
`true`. -/
theorem wedge_end_eq :
    ((⟨cfgTest, some gsWedgeDown, true⟩ : GestureRecognizer).onTouchEnd 200 touchA) =
      (⟨cfgTest, some gsWedgeFinal, true⟩, none) := by
  simp only [GestureRecognizer.onTouchEnd]
  norm_num [gsWedgeDown, gsWedgeMove, gsWedgeFinal, touchA, touchB,
    GestureRecognizer.recognizeGesture, cfgTest, sqrt_hundred, sqrt_one_div_hundred]

/-- Running the whole wedge interaction leaves the recognizer wedged:
`currentTouches` empty but `isProcessing` still `true`. -/
theorem wedge_run_eq :
    (GestureRecognizer.init cfgTest).run wedgeTrace = ⟨cfgTest, some gsWedgeFinal, true⟩ := by
  have hsplit : (GestureRecognizer.init cfgTest).run wedgeTrace =
      (((GestureRecognizer.init cfgTest).run wedgePrefix).onTouchEnd 200 touchA).1 := rfl
  rw [hsplit, wedge_run3_eq, wedge_end_eq]

/-- C1: in the wedge interaction two touches were concurrent, the final
release reaches the classifier with a state matching none of the TAP /
LONG_PRESS / SWIPE / PAN rules and with `|rotation| = 90` above the
rotation threshold (and `|scale - 1| = 0` below the scale threshold, so the
claimed multi-touch rule would answer ROTATE), yet `onTouchEnd` returns no
gesture event: `recognizeGesture` tests `currentTouches.length > 1` after
every touch has already been removed, so its multi-touch branch can never
fire. -/
theorem claim_c1 :
    (∃ gs, ((GestureRecognizer.init cfgTest).run
        [TouchEvent.start 0 touchA, TouchEvent.move touchB]).gestureState = some gs ∧
      gs.currentTouches.length = 2) ∧
    (((GestureRecognizer.init cfgTest).run wedgePrefix).onTouchEnd 200 touchA).2 = none ∧
    (((GestureRecognizer.init cfgTest).run wedgePrefix).onTouchEnd 200 touchA).1.gestureState
      = some gsWedgeFinal ∧
    ¬ (Real.sqrt (gsWedgeFinal.deltaX ^ 2 + gsWedgeFinal.deltaY ^ 2) < cfgTest.minDistance ∧
        200 - gsWedgeFinal.startTime < cfgTest.maxDuration) ∧
    ¬ (Real.sqrt (gsWedgeFinal.deltaX ^ 2 + gsWedgeFinal.deltaY ^ 2) < cfgTest.minDistance ∧
        200 - gsWedgeFinal.startTime > cfgTest.minDuration) ∧
    ¬ (Real.sqrt (gsWedgeFinal.velocityX ^ 2 + gsWedgeFinal.velocityY ^ 2) >
          cfgTest.velocityThreshold ∧
        Real.sqrt (gsWedgeFinal.deltaX ^ 2 + gsWedgeFinal.deltaY ^ 2) > cfgTest.minDistance) ∧
    ¬ (Real.sqrt (gsWedgeFinal.deltaX ^ 2 + gsWedgeFinal.deltaY ^ 2) > cfgTest.minDistance ∧
        Real.sqrt (gsWedgeFinal.velocityX ^ 2 + gsWedgeFinal.velocityY ^ 2) <
          cfgTest.velocityThreshold) ∧
    |gsWedgeFinal.scale - 1| ≤ cfgTest.scaleThreshold ∧
    |gsWedgeFinal.rotation| > cfgTest.rotationThreshold ∧
    GestureRecognizer.recognizeMultiTouchGesture cfgTest gsWedgeFinal =
      some GestureType.ROTATE := by
  refine ⟨⟨gsWedgeMove, ?_, by norm_num [gsWedgeMove]⟩, ?_, ?_, ?_, ?_, ?_, ?_, ?_, ?_, ?_⟩
  · show (((⟨cfgTest, some (startState 0 touchA), true⟩ : GestureRecognizer).onTouchMove
        touchB).1).gestureState = some gsWedgeMove
    rw [wedge_move_eq]
  · rw [wedge_run3_eq, wedge_end_eq]
  · rw [wedge_run3_eq, wedge_end_eq]
  · norm_num [gsWedgeFinal, gsWedgeMove, cfgTest, sqrt_hundred]
  · norm_num [gsWedgeFinal, gsWedgeMove, cfgTest, sqrt_hundred]
  · norm_num [gsWedgeFinal, gsWedgeMove, cfgTest, sqrt_hundred, sqrt_one_div_hundred]
  · norm_num [gsWedgeFinal, gsWedgeMove, cfgTest, sqrt_hundred, sqrt_one_div_hundred]
  · norm_num [gsWedgeFinal, gsWedgeMove, cfgTest]
  · norm_num [gsWedgeFinal, gsWedgeMove, cfgTest]
  · norm_num [GestureRecognizer.recognizeMultiTouchGesture, gsWedgeFinal, gsWedgeMove,
      cfgTest]

/-- The wedged recognizer accepts a later `move touchC`. -/
theorem escape_moveState_eq : moveState gsWedgeFinal touchC = gsEscape := by
  norm_num [moveState, gsWedgeFinal, gsWedgeMove, gsEscape, touchA, touchC,
    List.findIdx_nil]

/-- The move step out of the wedge. -/
theorem escape_move_eq :
    ((⟨cfgTest, some gsWedgeFinal, true⟩ : GestureRecognizer).onTouchMove touchC).1 =
      ⟨cfgTest, some gsEscape, true⟩ := by
  rw [onTouchMove_eq]
  simp only [escape_moveState_eq]
  norm_num [gsEscape]

/-- Releasing `touchC` classifies the wedged interaction as TAP after all:
the stale state is still live, so the recognizer escapes the wedge without
`reset`/`destroy`. -/
theorem escape_end_eq :
    ((⟨cfgTest, some gsEscape, true⟩ : GestureRecognizer).onTouchEnd 300 touchC) =
      (⟨cfgTest, some { gsEscapeFinal with isRecognized := true, isActive := false },
          false⟩,
        some { type := GestureType.TAP, state := gsEscapeFinal, timestamp := 300 }) := by
  simp only [GestureRecognizer.onTouchEnd]
  norm_num [gsEscape, gsEscapeFinal, touchC, GestureRecognizer.recognizeGesture,
    cfgTest, Real.sqrt_one]

/-- Counterexample to C10 as stated: the wedge interaction ends with every
touch released and no classification, and the recognizer indeed stays in its
processing state; but a later `onTouchMove`/`onTouchEnd` pair classifies as
TAP with no `reset`/`destroy` call, after which the next `onTouchStart` is
not ignored and creates a brand-new `GestureState`. -/
theorem claim_c10_counterexample :
    (GestureRecognizer.init cfgTest).run wedgeTrace =
      ⟨cfgTest, some gsWedgeFinal, true⟩ ∧
    (((GestureRecognizer.init cfgTest).run wedgePrefix).onTouchEnd 200 touchA).2 = none ∧
    (((((GestureRecognizer.init cfgTest).run wedgeTrace).onTouchMove touchC).1).onTouchEnd
        300 touchC).2 =
      some { type := GestureType.TAP, state := gsEscapeFinal, timestamp := 300 } ∧
    ((((((GestureRecognizer.init cfgTest).run wedgeTrace).onTouchMove touchC).1).onTouchEnd
        300 touchC).1.onTouchStart 400 touchD).gestureState =
      some (startState 400 touchD) := by
  refine ⟨wedge_run_eq, ?_, ?_, ?_⟩
  · rw [wedge_run3_eq, wedge_end_eq]
  · rw [wedge_run_eq, escape_move_eq, escape_end_eq]
  · rw [wedge_run_eq, escape_move_eq, escape_end_eq]
    norm_num [GestureRecognizer.onTouchStart, startState]

/-- C10 (amended): when a full release fails to classify, `onTouchEnd`
leaves the processing flag untouched, so the recognizer stays wedged in its
processing state; while the flag is set every `onTouchStart` is ignored
outright (the call returns the recognizer unchanged, so no new
`GestureState` is created by `onTouchStart`), `onTouchMove` never clears the
flag, and `reset` does clear it.  Unlike the original claim, this does not
persist until `reset`/`destroy`: the stale state remains live and a later
`onTouchEnd` that empties the touches and matches a rule emits an event and
clears the flag. -/
theorem claim_c10 (r : GestureRecognizer) (now now2 : ℝ) (t t2 : TouchPoint) :
    ((r.onTouchEnd now t).2 = none →
      (r.onTouchEnd now t).1.isProcessing = r.isProcessing) ∧
    (r.isProcessing = true → r.onTouchStart now2 t2 = r) ∧
    ((r.onTouchMove t2).1.isProcessing = r.isProcessing) ∧
    (r.reset).isProcessing = false := by
  obtain ⟨cfg, ogs, proc⟩ := r
  refine ⟨?_, ?_, ?_, rfl⟩
  · cases ogs with
    | none => cases proc <;> simp [GestureRecognizer.onTouchEnd]
    | some gs =>
      cases proc with
      | false => simp [GestureRecognizer.onTouchEnd]
      | true =>
        simp only [GestureRecognizer.onTouchEnd]
        split
        · split
          · intro h
            simp at h
          · intro _
            rfl
        · intro _
          rfl
  · intro hp
    unfold GestureRecognizer.onTouchStart
    rw [if_pos hp]
  · cases ogs with
    | none => cases proc <;> rfl
    | some gs => cases proc <;> rfl

/-- Witness for the amended C10 at the concrete wedged recognizer. -/
theorem claim_c10_witness :
    ((⟨cfgTest, some gsWedgeFinal, true⟩ : GestureRecognizer).onTouchStart 400 touchD =
      ⟨cfgTest, some gsWedgeFinal, true⟩) ∧
    (((⟨cfgTest, some gsWedgeFinal, true⟩ : GestureRecognizer).onTouchMove
        touchC).1.isProcessing = true) := by
  refine ⟨(claim_c10 ⟨cfgTest, some gsWedgeFinal, true⟩ 0 400 touchA touchD).2.1 rfl, ?_⟩
  have h := (claim_c10 ⟨cfgTest, some gsWedgeFinal, true⟩ 0 400 touchA touchC).2.2.1
  simpa using h

/-- One step of the eviction scan, with a current best. -/
theorem oldestScan_cons_some (b e : CacheEntry) (l : List CacheEntry) :
    oldestScan (some b) (e :: l) =
      oldestScan (if e.timestamp < b.timestamp then some e else some b) l := rfl

/-- The eviction scan starting from a best candidate returns a member (or
the candidate itself) whose timestamp is minimal. -/
theorem oldestScan_spec (l : List CacheEntry) (b c : CacheEntry)
    (h : oldestScan (some b) l = some c) :
    (c = b ∨ c ∈ l) ∧ c.timestamp ≤ b.timestamp ∧
      ∀ e ∈ l, c.timestamp ≤ e.timestamp := by
  induction l generalizing b with
  | nil =>
    obtain rfl : b = c := by simpa [oldestScan] using h
    exact ⟨Or.inl rfl, le_refl _, by simp⟩
  | cons e es ih =>
    rw [oldestScan_cons_some] at h
    by_cases hlt : e.timestamp < b.timestamp
    · rw [if_pos hlt] at h
      obtain ⟨hmem, hle, hall⟩ := ih e h
      refine ⟨Or.inr ?_, le_trans hle (le_of_lt hlt), ?_⟩
      · rcases hmem with rfl | hm
        · exact List.mem_cons_self _ _
        · exact List.mem_cons_of_mem _ hm
      · intro x hx
        rcases List.mem_cons.mp hx with rfl | hx2
        · exact hle
        · exact hall x hx2
    · rw [if_neg hlt] at h
      obtain ⟨hmem, hle, hall⟩ := ih b h
      refine ⟨?_, hle, ?_⟩
      · rcases hmem with rfl | hm
        · exact Or.inl rfl
        · exact Or.inr (List.mem_cons_of_mem _ hm)
      · intro x hx
        rcases List.mem_cons.mp hx with rfl | hx2
        · exact le_trans hle (not_lt.mp hlt)
        · exact hall x hx2

/-- The eviction scan with a current best always produces a victim. -/
theorem oldestScan_isSome (l : List CacheEntry) (b : CacheEntry) :
    ∃ c, oldestScan (some b) l = some c := by
  induction l generalizing b with
  | nil => exact ⟨b, rfl⟩
  | cons e es ih =>
    rw [oldestScan_cons_some]
    by_cases hlt : e.timestamp < b.timestamp
    · rw [if_pos hlt]; exact ih e
    · rw [if_neg hlt]; exact ih b

/-- Deleting a key that no entry carries is the identity. -/
theorem mapDelete_of_absent (es : List CacheEntry) (k : String)
    (h : ∀ x ∈ es, x.key ≠ k) : mapDelete es k = es := by
  unfold mapDelete
  rw [List.filter_eq_self]
  intro a ha
  simp [h a ha]

/-- Deleting the key of a member of a duplicate-free cache removes exactly
one entry. -/
theorem mapDelete_length (cache : List CacheEntry) (v : CacheEntry)
    (hn : (cache.map (fun e => e.key)).Nodup) (hv : v ∈ cache) :
    (mapDelete cache v.key).length + 1 = cache.length := by
  induction cache with
  | nil => cases hv
  | cons e es ih =>
    rw [List.map_cons, List.nodup_cons] at hn
    obtain ⟨hne, hns⟩ := hn
    rcases List.mem_cons.mp hv with hv1 | hv2
    · subst hv1
      have hkeep : mapDelete es v.key = es := by
        refine mapDelete_of_absent es v.key ?_
        intro x hx hxk
        exact hne (hxk ▸ List.mem_map_of_mem _ hx)
      unfold mapDelete at hkeep ⊢
      rw [List.filter_cons]
      rw [if_neg (by simp)]
      rw [hkeep]
      simp
    · have hne2 : (e.key == v.key) = false := by
        have : e.key ≠ v.key := fun hh => hne (hh ▸ List.mem_map_of_mem _ hv2)
        simpa using this
      unfold mapDelete at ih ⊢
      rw [List.filter_cons]
      rw [if_pos (by simp [hne2])]
      simp only [List.length_cons]
      have := ih hns hv2
      omega

/-- Model of `Map.set` with a key absent from the cache appends at the end. -/
theorem mapSet_of_fresh (cache : List CacheEntry) (e : CacheEntry)
    (h : ∀ x ∈ cache, x.key ≠ e.key) : mapSet cache e = cache ++ [e] := by
  have hany : cache.any (fun x => x.key == e.key) = false := by
    by_contra hc
    rw [Bool.not_eq_false, List.any_eq_true] at hc
    obtain ⟨x, hx, hb⟩ := hc
    exact h x hx (by simpa using hb)
  unfold mapSet
  rw [if_neg (by simp [hany])]

/-- C5 (amended): inserting a key that is not yet cached into a full cache
(positive capacity, duplicate-free and non-empty keys, caching enabled)
evicts exactly one entry — one whose insertion timestamp is minimal,
irrespective of the accumulated access counts — before appending the new
entry, so the net cache size stays at `maxCacheSize`.  (Re-inserting an
already-cached key instead overwrites it after the eviction and shrinks the
cache, and when the oldest entry is stored under the empty string key the
truthiness guard skips the eviction entirely and the cache grows past
`maxCacheSize`; see the counterexample for both.) -/
theorem claim_c5 (o : PerformanceOptimizer) (key : String) (result : ℕ) (now : ℝ)
    (hen : o.config.enableGestureCaching = true)
    (hfull : o.gestureCache.length = o.config.maxCacheSize)
    (hpos : 0 < o.config.maxCacheSize)
    (hnodup : (o.gestureCache.map (fun e => e.key)).Nodup)
    (hfresh : ∀ e ∈ o.gestureCache, e.key ≠ key)
    (hkeys : ∀ e ∈ o.gestureCache, e.key ≠ "") :
    ∃ victim ∈ o.gestureCache,
      (∀ e ∈ o.gestureCache, victim.timestamp ≤ e.timestamp) ∧
      (o.cacheGestureResult key result now).gestureCache =
        mapDelete o.gestureCache victim.key ++
          [{ key := key, data := result, timestamp := now, accessCount := 0 }] ∧
      (o.cacheGestureResult key result now).gestureCache.length =
        o.config.maxCacheSize := by
  obtain ⟨x, xs, hxl⟩ : ∃ x xs, o.gestureCache = x :: xs := by
    rcases hl : o.gestureCache with _ | ⟨x, xs⟩
    · rw [hl] at hfull
      simp at hfull
      omega
    · exact ⟨x, xs, rfl⟩
  obtain ⟨victim, hscan⟩ := oldestScan_isSome xs x
  have hscan0 : oldestScan none o.gestureCache = some victim := by
    rw [hxl]
    exact hscan
  obtain ⟨hmem0, hleb, hall⟩ := oldestScan_spec xs x victim hscan
  have hmem : victim ∈ o.gestureCache := by
    rw [hxl]
    rcases hmem0 with rfl | hm
    · exact List.mem_cons_self _ _
    · exact List.mem_cons_of_mem _ hm
  have hmin : ∀ e ∈ o.gestureCache, victim.timestamp ≤ e.timestamp := by
    intro e he
    rw [hxl] at he
    rcases List.mem_cons.mp he with rfl | he2
    · exact hleb
    · exact hall e he2
  have hev : o.evictOldestCacheEntry =
      { o with gestureCache := mapDelete o.gestureCache victim.key } := by
    unfold PerformanceOptimizer.evictOldestCacheEntry
    rw [hscan0]
    show (if victim.key = "" then o
      else { o with gestureCache := mapDelete o.gestureCache victim.key }) = _
    rw [if_neg (hkeys victim hmem)]
  have hresult :
      (o.cacheGestureResult key result now).gestureCache =
        mapDelete o.gestureCache victim.key ++
          [{ key := key, data := result, timestamp := now, accessCount := 0 }] := by
    unfold PerformanceOptimizer.cacheGestureResult
    rw [if_neg (by simp [hen])]
    rw [if_pos (by omega)]
    rw [hev]
    show mapSet (mapDelete o.gestureCache victim.key)
      { key := key, data := result, timestamp := now, accessCount := 0 } = _
    refine mapSet_of_fresh _ _ ?_
    intro e he
    exact hfresh e (List.mem_of_mem_filter he)
  refine ⟨victim, hmem, hmin, hresult, ?_⟩
  rw [hresult]
  rw [List.length_append]
  have hdel := mapDelete_length o.gestureCache victim hnodup hmem
  simp only [List.length_cons, List.length_nil]
  omega

/-- Counterexample to C5 as stated: with the cache full (capacity 2) and
caching enabled, re-inserting the already-present key "b" first evicts the
oldest entry "a" and then overwrites "b" in place, so the net size drops to
1 instead of staying at `maxCacheSize`; and when the oldest entry is stored
under the empty string key, the truthiness guard skips the eviction and
inserting a fresh key grows the cache to 3 entries, past `maxCacheSize`. -/
theorem claim_c5_counterexample :
    optDup.config.enableGestureCaching = true ∧
    optDup.gestureCache.length = optDup.config.maxCacheSize ∧
    (optDup.cacheGestureResult "b" 5 2).gestureCache.length = 1 ∧
    optDup.config.maxCacheSize ≠ 1 ∧
    optEmptyKey.config.enableGestureCaching = true ∧
    optEmptyKey.gestureCache.length = optEmptyKey.config.maxCacheSize ∧
    (optEmptyKey.cacheGestureResult "y" 1 9).gestureCache.length = 3 ∧
    optEmptyKey.config.maxCacheSize = 2 := by
  refine ⟨rfl, rfl, ?_, by norm_num [optDup, cfgOptEx], rfl, rfl, ?_, rfl⟩
  · norm_num [PerformanceOptimizer.cacheGestureResult,
      PerformanceOptimizer.evictOldestCacheEntry, oldestScan, mapSet, mapDelete,
      optDup, cfgOptEx]
    simp
  · norm_num [PerformanceOptimizer.cacheGestureResult,
      PerformanceOptimizer.evictOldestCacheEntry, oldestScan, mapSet, mapDelete,
      optEmptyKey, cfgOptEx]
    simp

/-- Witness for the amended C5: inserting the fresh key "c" into the full
two-entry cache evicts the older entry "b" (timestamp 3, despite its lower
access count) and keeps the size at 2. -/
theorem claim_c5_witness :
    ∃ victim ∈ optEx.gestureCache,
      (∀ e ∈ optEx.gestureCache, victim.timestamp ≤ e.timestamp) ∧
      (optEx.cacheGestureResult "c" 7 9).gestureCache =
        mapDelete optEx.gestureCache victim.key ++
          [{ key := "c", data := 7, timestamp := 9, accessCount := 0 }] ∧
      (optEx.cacheGestureResult "c" 7 9).gestureCache.length =
        optEx.config.maxCacheSize := by
  refine claim_c5 optEx "c" 7 9 rfl rfl (by norm_num [optEx, cfgOptEx]) ?_ ?_ ?_
  · simp [optEx]
  · intro e he
    simp only [optEx, List.mem_cons, List.not_mem_nil, or_false] at he
    rcases he with rfl | rfl <;> simp
  · intro e he
    simp only [optEx, List.mem_cons, List.not_mem_nil, or_false] at he
    rcases he with rfl | rfl <;> simp

/-- Pool operations never change the optimizer configuration. -/
theorem poolStep_config (o : PerformanceOptimizer) (e : PoolEvent) :
    (o.poolStep e).config = o.config := by
  cases e with
  | acquire =>
    show o.getPooledObject.2.config = o.config
    unfold PerformanceOptimizer.getPooledObject
    split <;> rfl
  | release obj =>
    show (o.returnPooledObject obj).config = o.config
    unfold PerformanceOptimizer.returnPooledObject
    split <;> rfl

/-- One pool operation keeps the pool size within the configured capacity. -/
theorem poolStep_le (o : PerformanceOptimizer) (e : PoolEvent)
    (h : o.memoryPool.length ≤ o.config.memoryPoolSize) :
    (o.poolStep e).memoryPool.length ≤ (o.poolStep e).config.memoryPoolSize := by
  rw [poolStep_config]
  cases e with
  | acquire =>
    show o.getPooledObject.2.memoryPool.length ≤ o.config.memoryPoolSize
    unfold PerformanceOptimizer.getPooledObject
    split
    · simp only [List.length_dropLast]
      omega
    · exact h
  | release obj =>
    show (o.returnPooledObject obj).memoryPool.length ≤ o.config.memoryPoolSize
    unfold PerformanceOptimizer.returnPooledObject
    split
    case isTrue hc =>
      simp only [List.length_append, List.length_cons, List.length_nil]
      omega
    case isFalse _ => exact h

/-- The pool-size bound holds along every sequence of pool operations. -/
theorem runPool_le (o : PerformanceOptimizer) (evs : List PoolEvent)
    (h : o.memoryPool.length ≤ o.config.memoryPoolSize) :
    (o.runPool evs).memoryPool.length ≤ (o.runPool evs).config.memoryPoolSize := by
  induction evs generalizing o with
  | nil => exact h
  | cons e es ih => exact ih (o.poolStep e) (poolStep_le o e h)

/-- C6: under a fixed configured pool capacity, the pool size never exceeds
that capacity along any sequence of acquire/release operations; a release
with the pool at capacity drops the object (the optimizer is unchanged),
and a release under capacity with pooling enabled pushes back the object
with its fields reset to zero. -/
theorem claim_c6 (cfg : OptimizationConfig) (evs : List PoolEvent)
    (o : PerformanceOptimizer) (obj : PooledObject) :
    ((PerformanceOptimizer.init cfg).runPool evs).memoryPool.length ≤
      cfg.memoryPoolSize ∧
    (o.memoryPool.length = o.config.memoryPoolSize →
      o.returnPooledObject obj = o) ∧
    (o.config.enableMemoryPooling = true →
      o.memoryPool.length < o.config.memoryPoolSize →
      (o.returnPooledObject obj).memoryPool =
        o.memoryPool ++ [obj.resetFields]) := by
  refine ⟨?_, ?_, ?_⟩
  · have hinit : (PerformanceOptimizer.init cfg).memoryPool.length ≤
        (PerformanceOptimizer.init cfg).config.memoryPoolSize := by
      unfold PerformanceOptimizer.init initMemoryPool
      split <;> simp
    have hrun := runPool_le (PerformanceOptimizer.init cfg) evs hinit
    have hcfg : ((PerformanceOptimizer.init cfg).runPool evs).config = cfg := by
      have hstep : ∀ (o : PerformanceOptimizer) (es : List PoolEvent),
          (o.runPool es).config = o.config := by
        intro o es
        induction es generalizing o with
        | nil => rfl
        | cons e es2 ih => rw [PerformanceOptimizer.runPool, ih, poolStep_config]
      rw [hstep]
      rfl
    rw [hcfg] at hrun
    exact hrun
  · intro hfull
    unfold PerformanceOptimizer.returnPooledObject
    rw [if_neg]
    rintro ⟨_, hlt⟩
    omega
  · intro hen hlt
    unfold PerformanceOptimizer.returnPooledObject
    rw [if_pos ⟨hen, hlt⟩]

/-- Witness for C6: with capacity 1, releasing into the full freshly
initialized pool is a no-op, and releasing into an empty pool stores the
zero-reset object. -/
theorem claim_c6_witness :
    (PerformanceOptimizer.init cfgOptEx).returnPooledObject ⟨1, 2, 3, 4, 5⟩ =
      PerformanceOptimizer.init cfgOptEx ∧
    (({ config := cfgOptEx, gestureCache := [], memoryPool := [] } :
        PerformanceOptimizer).returnPooledObject ⟨1, 2, 3, 4, 5⟩).memoryPool =
      [(⟨1, 2, 3, 4, 5⟩ : PooledObject).resetFields] := by
  constructor
  · exact (claim_c6 cfgOptEx [] (PerformanceOptimizer.init cfgOptEx)
      ⟨1, 2, 3, 4, 5⟩).2.1 rfl
  · have h := (claim_c6 cfgOptEx []
      ({ config := cfgOptEx, gestureCache := [], memoryPool := [] } :
        PerformanceOptimizer) ⟨1, 2, 3, 4, 5⟩).2.2 rfl (by norm_num [cfgOptEx])
    simpa using h

/-- The catching forEach loop equals the specification fold: every listener
runs exactly once, in list order, whatever the earlier error outcomes. -/
theorem runCallbacks_eq_invokeEach {W : Type} (cbs : List (Listener W))
    (ev : GestureEvent) (w : W) :
    runCallbacks cbs ev w = invokeEachListener cbs ev w := by
  induction cbs generalizing w with
  | nil => rfl
  | cons cb rest ih =>
    unfold runCallbacks invokeEachListener
    rw [List.foldl_cons]
    exact ih ((cb ev w).1)

/-- Dispatch decomposes around any listener: the listeners after `cb` are
still invoked on the world `cb` left behind, whether or not `cb` threw. -/
theorem runCallbacks_append {W : Type} (cbs1 cbs2 : List (Listener W))
    (cb : Listener W) (ev : GestureEvent) (w : W) :
    runCallbacks (cbs1 ++ cb :: cbs2) ev w =
      runCallbacks cbs2 ev (cb ev (runCallbacks cbs1 ev w)).1 := by
  induction cbs1 generalizing w with
  | nil => rfl
  | cons c rest ih =>
    show runCallbacks (rest ++ cb :: cbs2) ev ((c ev w).1) =
      runCallbacks cbs2 ev (cb ev (runCallbacks (c :: rest) ev w)).1
    exact ih ((c ev w).1)

/-- C7: dispatching a completed gesture event invokes every listener
registered for that gesture type in registration order — an exception inside
one listener is caught, does not prevent the invocation of the remaining
listeners, and does not change the manager's active-touch map, target
registry or callback lists (`onGesture` appends, preserving registration
order). -/
theorem claim_c7 {W : Type} (m : TouchControlManager W) (ev : GestureEvent)
    (w : W) (cbs1 cbs2 : List (Listener W)) (cb : Listener W)
    (ty : GestureType) :
    (m.processGestureEvent ev w).2 =
      invokeEachListener (m.gestureCallbacks ev.type) ev w ∧
    (m.processGestureEvent ev w).1.activeTouches = m.activeTouches ∧
    (m.processGestureEvent ev w).1.touchTargets = m.touchTargets ∧
    (m.processGestureEvent ev w).1.gestureCallbacks = m.gestureCallbacks ∧
    runCallbacks (cbs1 ++ cb :: cbs2) ev w =
      runCallbacks cbs2 ev (cb ev (runCallbacks cbs1 ev w)).1 ∧
    (m.onGesture ty cb).gestureCallbacks ty = m.gestureCallbacks ty ++ [cb] := by
  refine ⟨?_, rfl, rfl, rfl, runCallbacks_append cbs1 cbs2 cb ev w, ?_⟩
  · exact runCallbacks_eq_invokeEach (m.gestureCallbacks ev.type) ev w
  · unfold TouchControlManager.onGesture
    simp

/-- C8: the gesture direction functions choose the horizontal axis exactly
when `|dx|` is strictly greater than `|dy|` (right for positive dx, left
otherwise); in every other case, including exact ties, they choose the
vertical axis (down for positive dy, up otherwise). -/
theorem claim_c8 (deltaX deltaY : ℝ) (gs : GestureState) :
    ((calculateGestureDirection deltaX deltaY = "right" ∨
        calculateGestureDirection deltaX deltaY = "left") ↔ |deltaX| > |deltaY|) ∧
    (|deltaX| > |deltaY| →
      calculateGestureDirection deltaX deltaY =
        if deltaX > 0 then "right" else "left") ∧
    (|deltaX| ≤ |deltaY| →
      calculateGestureDirection deltaX deltaY =
        if deltaY > 0 then "down" else "up") ∧
    (|deltaX| = |deltaY| →
      calculateGestureDirection deltaX deltaY =
        if deltaY > 0 then "down" else "up") ∧
    (|gs.deltaX| > |gs.deltaY| →
      GestureRecognizer.recognizeSwipeDirection gs =
        if gs.deltaX > 0 then GestureType.SWIPE_RIGHT else GestureType.SWIPE_LEFT) ∧
    (|gs.deltaX| ≤ |gs.deltaY| →
      GestureRecognizer.recognizeSwipeDirection gs =
        if gs.deltaY > 0 then GestureType.SWIPE_DOWN else GestureType.SWIPE_UP) := by
  refine ⟨⟨?_, ?_⟩, ?_, ?_, ?_, ?_, ?_⟩
  · intro hor
    by_contra hnot
    unfold calculateGestureDirection at hor
    rw [if_neg hnot] at hor
    rcases hor with hor | hor <;> split_ifs at hor <;> simp at hor
  · intro hgt
    unfold calculateGestureDirection
    rw [if_pos hgt]
    split_ifs
    · exact Or.inl rfl
    · exact Or.inr rfl
  · intro hgt
    unfold calculateGestureDirection
    rw [if_pos hgt]
  · intro hle
    unfold calculateGestureDirection
    rw [if_neg (not_lt.mpr hle)]
  · intro heq
    unfold calculateGestureDirection
    rw [if_neg (by rw [heq]; exact lt_irrefl _)]
  · intro hgt
    unfold GestureRecognizer.recognizeSwipeDirection
    rw [if_pos hgt]
  · intro hle
    unfold GestureRecognizer.recognizeSwipeDirection
    rw [if_neg (not_lt.mpr hle)]

/-- Witness for C8 at a concrete tie: `|3| = |-3|`, so the direction falls
to the vertical axis and, with a negative dy, reads `up`. -/
theorem claim_c8_witness :
    |(3 : ℝ)| = |(-3 : ℝ)| ∧ calculateGestureDirection 3 (-3) = "up" := by
  have habs : |(3 : ℝ)| = |(-3 : ℝ)| := by norm_num
  refine ⟨habs, ?_⟩
  have h := (claim_c8 3 (-3)
    { startTime := 0, startTouches := [], currentTouches := [], deltaX := 0,
      deltaY := 0, velocityX := 0, velocityY := 0, scale := 1, rotation := 0,
      isActive := true, isRecognized := false }).2.2.2.1 habs
  rw [h, if_neg (by norm_num)]

/-- C9: the aggregate snapshot computes `errorRate` as
`(total - successes) / total` over the per-gesture-type counters, with
`errorRate = 0` and `successRate = 1` when the total count is zero. -/
theorem claim_c9 (mon : PerformanceMonitor) :
    (mon.totalGestures = 0 →
      mon.getMetrics.errorRate = 0 ∧ mon.getMetrics.successRate = 1) ∧
    (0 < mon.totalGestures →
      mon.getMetrics.errorRate =
        ((mon.totalGestures : ℝ) - (mon.successfulGestures : ℝ)) /
          (mon.totalGestures : ℝ) ∧
      mon.getMetrics.successRate =
        (mon.successfulGestures : ℝ) / (mon.totalGestures : ℝ)) := by
  constructor
  · intro h
    simp only [PerformanceMonitor.getMetrics]
    rw [h]
    norm_num
  · intro h
    simp only [PerformanceMonitor.getMetrics]
    rw [if_pos h, if_pos h]
    exact ⟨rfl, rfl⟩

/-- Witness for C9 on the freshly initialized monitor: all counters zero,
so the error rate is 0 and the success rate is 1. -/
theorem claim_c9_witness :
    PerformanceMonitor.init.getMetrics.errorRate = 0 ∧
    PerformanceMonitor.init.getMetrics.successRate = 1 :=
  (claim_c9 PerformanceMonitor.init).1
    (by simp [PerformanceMonitor.totalGestures, PerformanceMonitor.init])

end TouchControl
